import Mathlib

/-!
Verification development for the ClaudStore inventory backend.

Shallow embedding conventions:
- Python `Decimal` values are embedded as `ℚ` (exact arithmetic).
- Display-only `float(...)` conversions on exact quantities are kept in `ℚ`
  (the numeric value of the expression, before the lossy display cast) or,
  where idempotence of the cast itself matters, as an abstract map `ℚ → ℚ`.
- Database rows are records; tables are lists of records kept in a `Store`.
- Route handlers become functions from the request (and store) to a
  `RouteResult` (HTTP status code plus payload or error detail) and the
  post-state of the store.
- SQL objects that live only in the database (stored procedures, views) are
  modelled from the spec; each such definition carries a doc comment starting
  with `Modelled from the spec:`.
-/

namespace ClaudStore

/-- Result of a route handler: an HTTP status code with a payload on success,
or a status code with an error detail on failure. -/
inductive RouteResult (α : Type) where
  | success (code : ℕ) (value : α)
  | failure (code : ℕ) (detail : String)
  deriving DecidableEq

/-! ## utils/helpers.py -/

/-- Embeds `calcular_porcentaje_ganancia` (utils/helpers.py): guarded by
`costo == 0`, otherwise `(ganancia / costo) * 100`.  The Python code wraps the
result in a display-only `float(...)`; the exact value is kept in `ℚ`. -/
def calcular_porcentaje_ganancia (costo precio_venta : ℚ) : ℚ :=
  if costo = 0 then 0
  else (precio_venta - costo) / costo * 100

/-- Embeds `calcular_margen_ganancia` (utils/helpers.py). -/
def calcular_margen_ganancia (costo precio_venta : ℚ) : ℚ :=
  precio_venta - costo

/-- Embeds the computed column `(p.precio_venta - p.costo) as margen_ganancia`
from the product SELECT statements in routes/productos.py. -/
def producto_margen_ganancia (costo precio_venta : ℚ) : ℚ :=
  precio_venta - costo

/-- Embeds the computed column
`CASE WHEN p.costo > 0 THEN ((p.precio_venta - p.costo) / p.costo * 100) ELSE 0 END`
from the product SELECT statements in routes/productos.py. -/
def producto_porcentaje_ganancia (costo precio_venta : ℚ) : ℚ :=
  if 0 < costo then (precio_venta - costo) / costo * 100 else 0

/-- Result record of `paginar_resultados` (utils/helpers.py). -/
structure Paginado (α : Type) where
  total : ℕ
  page : ℤ
  page_size : ℕ
  total_pages : ℕ
  data : List α

/-- Embeds `paginar_resultados` (utils/helpers.py): ceiling division for the
page count, clamping of the requested page, then a Python slice
`resultados[start_idx:end_idx]` with `end_idx = start_idx + page_size`. -/
def paginar_resultados {α : Type} (resultados : List α) (page : ℤ) (page_size : ℕ) :
    Paginado α :=
  let total := resultados.length
  let total_pages := (total + page_size - 1) / page_size
  let page1 := if page < 1 then (1 : ℤ) else page
  let page2 := if (total_pages : ℤ) < page1 ∧ 0 < total_pages then (total_pages : ℤ) else page1
  let start_idx := ((page2 - 1) * (page_size : ℤ)).toNat
  { total := total
    page := page2
    page_size := page_size
    total_pages := total_pages
    data := (resultados.drop start_idx).take page_size }

/-- A row of the `ventas` table, restricted to the fields the embedded
computations read (`id_producto`, `cantidad`, `total`). -/
structure VentaRow where
  id_producto : ℕ
  cantidad : ℕ
  total : ℚ
  deriving DecidableEq

/-- A row of the `compras` table, restricted to the field the embedded
computations read (`total`). -/
structure CompraRow where
  total : ℚ
  deriving DecidableEq

/-- A row of the `registros_financieros` table, restricted to the fields the
embedded computations read (`tipo`, `monto`). -/
structure RegistroRow where
  tipo : String
  monto : ℚ
  deriving DecidableEq

/-- Result record of `calcular_totales_periodo` (utils/helpers.py). -/
structure Totales where
  total_ventas : ℚ
  total_compras : ℚ
  inversion_manual : ℚ
  gastos_manual : ℚ
  ganancia_manual : ℚ
  ganancia_neta : ℚ
  deriving DecidableEq

/-- Embeds `calcular_totales_periodo` (utils/helpers.py): sums of sale and
purchase totals, sums of manual entries filtered by type, and
`ganancia_neta = total_ventas - total_compras + ganancia_manual -
inversion_manual - gastos_manual`. -/
def calcular_totales_periodo (ventas : List VentaRow) (compras : List CompraRow)
    (registros_financieros : List RegistroRow) : Totales :=
  let total_ventas := (ventas.map (·.total)).sum
  let total_compras := (compras.map (·.total)).sum
  let inversion_manual :=
    ((registros_financieros.filter (fun r => r.tipo == "inversion")).map (·.monto)).sum
  let gastos_manual :=
    ((registros_financieros.filter (fun r => r.tipo == "gasto")).map (·.monto)).sum
  let ganancia_manual :=
    ((registros_financieros.filter (fun r => r.tipo == "ganancia")).map (·.monto)).sum
  { total_ventas := total_ventas
    total_compras := total_compras
    inversion_manual := inversion_manual
    gastos_manual := gastos_manual
    ganancia_manual := ganancia_manual
    ganancia_neta := total_ventas - total_compras + ganancia_manual
      - inversion_manual - gastos_manual }

/-! ## config/database.py -/

/-- Observable events of one checkout/use/release cycle of a pooled
connection. -/
inductive DBEvent where
  | checkout
  | commit
  | rollback
  | cursorClose
  | release
  deriving DecidableEq

/-- Embeds the `get_db_cursor` context manager (config/database.py): checkout,
run the body, commit on success when requested, roll back and re-raise on any
exception, and in a `finally` block close the cursor and release the
connection.  The body of the `with` block is abstracted as its outcome
(`Except` value); the second component is the event trace of the cycle. -/
def get_db_cursor {α : Type} (commit : Bool) (body : Except String α) :
    Except String α × List DBEvent :=
  match body with
  | .ok a => (.ok a, [.checkout] ++ (if commit then [.commit] else []) ++ [.cursorClose, .release])
  | .error e => (.error e, [.checkout, .rollback, .cursorClose, .release])

/-- Embeds `execute_query` (config/database.py): runs the statement inside
`get_db_cursor(commit = not fetch)` and returns either all rows (`fetch`) or
the affected-row count.  The statement execution is abstracted as its outcome:
on success a pair of result rows and row count. -/
def execute_query {Row : Type} (fetch : Bool) (body : Except String (List Row × ℕ)) :
    Except String (List Row ⊕ ℕ) × List DBEvent :=
  get_db_cursor (!fetch)
    (body.map (fun rc => if fetch then Sum.inl rc.1 else Sum.inr rc.2))

/-- Embeds `execute_query_dict` (config/database.py): checkout, execute and
fetch inside a bare `try`, close the cursor only after a successful fetch, and
release the connection in the `finally` block.  There is no rollback branch in
the source. -/
def execute_query_dict {Row : Type} (body : Except String (List Row)) :
    Except String (List Row) × List DBEvent :=
  match body with
  | .ok rows => (.ok rows, [.checkout, .cursorClose, .release])
  | .error e => (.error e, [.checkout, .release])

/-! ## routes/ventas.py -/

/-- Python's substring test `needle in hay` on character lists. -/
def list_contains_sub (needle : List Char) : List Char → Bool
  | [] => needle.isEmpty
  | c :: rest => needle.isPrefixOf (c :: rest) || list_contains_sub needle rest

/-- Python's substring test `needle in hay` on strings. -/
def str_contains (needle hay : String) : Bool :=
  list_contains_sub needle.toList hay.toList

/-- Embeds the `registrar_venta` handler (routes/ventas.py).  The entire `try`
body — the call to the external stored procedure `registrar_venta` plus the
read-back of the created sale row — is abstracted as its outcome `proc`.  The
`except` branch classifies the error text exactly as the source does:
`"Stock insuficiente"` substring first (400), then `"Producto no encontrado"`
(404), otherwise a generic 500. -/
def registrar_venta {α : Type} (proc : Except String α) : RouteResult α :=
  match proc with
  | .ok venta => .success 201 venta
  | .error error_msg =>
    if str_contains "Stock insuficiente" error_msg then
      .failure 400 error_msg
    else if str_contains "Producto no encontrado" error_msg then
      .failure 404 error_msg
    else
      .failure 500 ("Error al registrar venta: " ++ error_msg)

/-! ## Store state and routes/periodos.py -/

/-- One entry of a top-product ranking. -/
structure TopProducto where
  id_producto : ℕ
  total_vendido : ℕ
  ingresos_generados : ℚ
  deriving DecidableEq

/-- A row of the `periodos_mensuales` snapshot table, restricted to the
fields the claims mention (schema: `PeriodoMensualResponse` in
models/schemas.py). -/
structure Periodo where
  id_periodo : ℕ
  anio : ℕ
  mes : ℕ
  total_ventas : ℚ
  total_compras : ℚ
  total_inversion_manual : ℚ
  total_gastos_manual : ℚ
  ganancia_neta : ℚ
  top_productos : List TopProducto
  deriving DecidableEq

/-- Database state: the live tables, the snapshot table, and the next serial
id for snapshot rows. -/
structure Store where
  ventas : List VentaRow
  compras : List CompraRow
  registros : List RegistroRow
  periodos : List Periodo
  next_id : ℕ
  deriving DecidableEq

/-- Modelled from the spec: the top-product ranking computed by the database
(view `vista_top_productos_periodo` and the ranking inside the SQL function
`cerrar_periodo_mensual`, neither of which is under src/): sales of the period
grouped by product (first-appearance order, matching the unspecified tie
break) with summed quantity and revenue, ordered by quantity sold
descending. -/
def top_productos_ranking (ventas : List VentaRow) : List TopProducto :=
  let ids := ventas.foldl
    (fun acc v => if acc.contains v.id_producto then acc else acc ++ [v.id_producto])
    ([] : List ℕ)
  let grouped := ids.map (fun pid =>
    let vs := ventas.filter (fun v => v.id_producto == pid)
    { id_producto := pid
      total_vendido := (vs.map (·.cantidad)).sum
      ingresos_generados := (vs.map (·.total)).sum : TopProducto })
  grouped.mergeSort (fun a b => Nat.ble b.total_vendido a.total_vendido)

/-- Modelled from the spec: the SQL function `cerrar_periodo_mensual` (a
stored procedure in the database, not under src/).  Per spec §4.4 it computes
the sum of sale totals, the sum of purchase totals, the sums of manual entries
by type, `net profit = sales - purchases + manual-gains - manual-investment -
manual-expense`, and the ranked top-product list (top 8, matching the live
report path), and inserts an immutable snapshot row, returning its id. -/
def sql_cerrar_periodo_mensual (s : Store) (anio mes : ℕ) : Periodo × Store :=
  let total_ventas := (s.ventas.map (·.total)).sum
  let total_compras := (s.compras.map (·.total)).sum
  let inversion := ((s.registros.filter (fun r => r.tipo == "inversion")).map (·.monto)).sum
  let gastos := ((s.registros.filter (fun r => r.tipo == "gasto")).map (·.monto)).sum
  let ganancias := ((s.registros.filter (fun r => r.tipo == "ganancia")).map (·.monto)).sum
  let p : Periodo :=
    { id_periodo := s.next_id
      anio := anio
      mes := mes
      total_ventas := total_ventas
      total_compras := total_compras
      total_inversion_manual := inversion
      total_gastos_manual := gastos
      ganancia_neta := total_ventas - total_compras + ganancias - inversion - gastos
      top_productos := (top_productos_ranking s.ventas).take 8 }
  (p, { s with periodos := s.periodos ++ [p], next_id := s.next_id + 1 })

/-- Embeds the `cerrar_periodo_mensual` route handler (routes/periodos.py):
first a SELECT for an existing snapshot with the same `(anio, mes)` — if one
exists, an HTTP 400 is raised and nothing is written; otherwise the SQL
function is called and the created row is read back by its id and returned
with status 201. -/
def cerrar_periodo_mensual (s : Store) (anio mes : ℕ) : RouteResult Periodo × Store :=
  let existing := s.periodos.filter (fun p => p.anio == anio && p.mes == mes)
  if existing = [] then
    let ps := sql_cerrar_periodo_mensual s anio mes
    match ps.2.periodos.filter (fun q => q.id_periodo == ps.1.id_periodo) with
    | [] => (.failure 500 "Error al cerrar periodo", ps.2)
    | q :: _ => (.success 201 q, ps.2)
  else
    (.failure 400 "Ya existe un periodo cerrado", s)

/-- Record shape of the `vista_ganancia_periodo_actual` row
(schema: `GananciaPeriodoResponse` in models/schemas.py). -/
structure GananciaView where
  ingresos_ventas : ℚ
  inversion_compras : ℚ
  inversion_manual : ℚ
  gastos_manuales : ℚ
  ganancia_manual : ℚ
  ganancia_neta_total : ℚ
  deriving DecidableEq

/-- Modelled from the spec: the database view `vista_ganancia_periodo_actual`
(not under src/).  Per spec §4.4 the current-period figures are computed on
demand from the live tables "using the same formula" as the period close. -/
def vista_ganancia_periodo_actual (s : Store) : GananciaView :=
  let ingresos := (s.ventas.map (·.total)).sum
  let compras := (s.compras.map (·.total)).sum
  let inversion := ((s.registros.filter (fun r => r.tipo == "inversion")).map (·.monto)).sum
  let gastos := ((s.registros.filter (fun r => r.tipo == "gasto")).map (·.monto)).sum
  let ganancias := ((s.registros.filter (fun r => r.tipo == "ganancia")).map (·.monto)).sum
  { ingresos_ventas := ingresos
    inversion_compras := compras
    inversion_manual := inversion
    gastos_manuales := gastos
    ganancia_manual := ganancias
    ganancia_neta_total := ingresos - compras + ganancias - inversion - gastos }

/-- The aggregate figures assembled by the live-report path. -/
structure PeriodoActualData where
  total_ventas : ℚ
  total_compras : ℚ
  total_inversion_manual : ℚ
  total_gastos_manual : ℚ
  ganancia_manual : ℚ
  ganancia_neta : ℚ
  top_productos : List TopProducto
  deriving DecidableEq

/-- Embeds the data-assembly part of `generar_excel_periodo_actual`
(routes/periodos.py): one row from `vista_ganancia_periodo_actual`, the top
products from `vista_top_productos_periodo LIMIT 8`, and the field renaming
into the period-report shape. -/
def generar_excel_periodo_actual_data (s : Store) : PeriodoActualData :=
  let ganancia := vista_ganancia_periodo_actual s
  let top := (top_productos_ranking s.ventas).take 8
  { total_ventas := ganancia.ingresos_ventas
    total_compras := ganancia.inversion_compras
    total_inversion_manual := ganancia.inversion_manual
    total_gastos_manual := ganancia.gastos_manuales
    ganancia_manual := ganancia.ganancia_manual
    ganancia_neta := ganancia.ganancia_neta_total
    top_productos := top }

/-! ## routes/categorias.py and routes/productos.py (partial updates) -/

/-- A row of the `categorias` table. -/
structure Categoria where
  id_categoria : ℕ
  nombre : String
  descripcion : Option String
  activo : Bool
  fecha_registro : ℕ
  deriving DecidableEq

/-- The `CategoriaUpdate` schema (models/schemas.py): every field optional. -/
structure CategoriaUpdate where
  nombre : Option String := none
  descripcion : Option String := none
  activo : Option Bool := none
  deriving DecidableEq

/-- The effect on one row of the dynamically built `UPDATE categorias SET ...`
statement of `actualizar_categoria` (routes/categorias.py): each column is set
exactly when the corresponding request field is not None. -/
def apply_categoria_update (c : Categoria) (u : CategoriaUpdate) : Categoria :=
  { c with
    nombre := match u.nombre with | some v => v | none => c.nombre
    descripcion := match u.descripcion with | some v => some v | none => c.descripcion
    activo := match u.activo with | some v => v | none => c.activo }

/-- Mirrors `if not updates:` in `actualizar_categoria`: the dynamic update
list is empty exactly when every request field is None. -/
def categoria_update_is_empty (u : CategoriaUpdate) : Bool :=
  u.nombre.isNone && u.descripcion.isNone && u.activo.isNone

/-- Embeds the `actualizar_categoria` handler (routes/categorias.py): SELECT
by id (404 if no row), return the existing row unchanged when no field is
supplied, otherwise UPDATE only the supplied columns on the rows with that id
and return the updated row (`RETURNING ... / fetchone`). -/
def actualizar_categoria (db : List Categoria) (id : ℕ) (u : CategoriaUpdate) :
    RouteResult Categoria × List Categoria :=
  match db.filter (fun c => c.id_categoria == id) with
  | [] => (.failure 404 "Categoria no encontrada", db)
  | existing :: _ =>
    if categoria_update_is_empty u then
      (.success 200 existing, db)
    else
      (.success 200 (apply_categoria_update existing u),
       db.map (fun c => if c.id_categoria == id then apply_categoria_update c u else c))

/-- A row of the `productos` table. -/
structure Producto where
  id_producto : ℕ
  codigo_barras : Option String
  nombre : String
  descripcion : Option String
  id_categoria : Option ℕ
  costo : ℚ
  precio_venta : ℚ
  stock : ℕ
  imagen_url : Option String
  activo : Bool
  fecha_registro : ℕ
  fecha_modificacion : ℕ
  deriving DecidableEq

/-- The `ProductoUpdate` schema (models/schemas.py): every field optional —
including `stock`. -/
structure ProductoUpdate where
  codigo_barras : Option String := none
  nombre : Option String := none
  descripcion : Option String := none
  id_categoria : Option ℕ := none
  costo : Option ℚ := none
  precio_venta : Option ℚ := none
  stock : Option ℕ := none
  imagen_url : Option String := none
  activo : Option Bool := none
  deriving DecidableEq

/-- The effect on one row of the dynamically built `UPDATE productos SET ...`
statement of `actualizar_producto` (routes/productos.py): each column —
including `stock` — is set exactly when the corresponding request field is
not None. -/
def apply_producto_update (p : Producto) (u : ProductoUpdate) : Producto :=
  { p with
    codigo_barras := match u.codigo_barras with | some v => some v | none => p.codigo_barras
    nombre := match u.nombre with | some v => v | none => p.nombre
    descripcion := match u.descripcion with | some v => some v | none => p.descripcion
    id_categoria := match u.id_categoria with | some v => some v | none => p.id_categoria
    costo := match u.costo with | some v => v | none => p.costo
    precio_venta := match u.precio_venta with | some v => v | none => p.precio_venta
    stock := match u.stock with | some v => v | none => p.stock
    imagen_url := match u.imagen_url with | some v => some v | none => p.imagen_url
    activo := match u.activo with | some v => v | none => p.activo }

/-- Mirrors `if not updates:` in `actualizar_producto`. -/
def producto_update_is_empty (u : ProductoUpdate) : Bool :=
  u.codigo_barras.isNone && u.nombre.isNone && u.descripcion.isNone &&
  u.id_categoria.isNone && u.costo.isNone && u.precio_venta.isNone &&
  u.stock.isNone && u.imagen_url.isNone && u.activo.isNone

/-- Embeds the `actualizar_producto` handler (routes/productos.py): SELECT by
id (404 if no row), return the existing row unchanged when no field is
supplied, otherwise UPDATE only the supplied columns and return the updated
row. -/
def actualizar_producto (db : List Producto) (id : ℕ) (u : ProductoUpdate) :
    RouteResult Producto × List Producto :=
  match db.filter (fun p => p.id_producto == id) with
  | [] => (.failure 404 "Producto no encontrado", db)
  | existing :: _ =>
    if producto_update_is_empty u then
      (.success 200 existing, db)
    else
      (.success 200 (apply_producto_update existing u),
       db.map (fun p => if p.id_producto == id then apply_producto_update p u else p))

/-- Python's `str.split('.')` on a character list: always at least one
component, empty components between consecutive dots. -/
def split_on_dot : List Char → List (List Char)
  | [] => [[]]
  | c :: rest =>
    let r := split_on_dot rest
    if c = '.' then [] :: r
    else
      match r with
      | [] => [[c]]
      | h :: t => (c :: h) :: t

/-- Embeds `validar_imagen` (utils/helpers.py) at its default allowed-extension
set: a non-empty filename whose lowercased last dot-separated component
(`filename.lower().split('.')[-1]`) is one of jpg, jpeg, png, gif, webp. -/
def validar_imagen (filename : String) : Bool :=
  if filename = "" then false
  else (["jpg", "jpeg", "png", "gif", "webp"].map String.toList).contains
    ((split_on_dot (filename.toList.map Char.toLower)).getLastD [])

/-- The form fields of `actualizar_producto_con_imagen` (routes/productos.py):
every field optional — including `stock`; the image itself is a separate
upload, so there is no `imagen_url` form field. -/
structure ProductoConImagenForm where
  codigo_barras : Option String := none
  nombre : Option String := none
  descripcion : Option String := none
  id_categoria : Option ℕ := none
  costo : Option ℚ := none
  precio_venta : Option ℚ := none
  stock : Option ℕ := none
  activo : Option Bool := none
  deriving DecidableEq

/-- The effect on one row of the dynamically built `UPDATE productos SET ...`
statement of `actualizar_producto_con_imagen` (routes/productos.py): each form
column — including `stock` — is set exactly when the corresponding field is
not None, and `imagen_url` is set exactly when a new image was uploaded. -/
def apply_producto_con_imagen_update (p : Producto) (u : ProductoConImagenForm)
    (nueva_imagen_url : Option String) : Producto :=
  { p with
    codigo_barras := match u.codigo_barras with | some v => some v | none => p.codigo_barras
    nombre := match u.nombre with | some v => v | none => p.nombre
    descripcion := match u.descripcion with | some v => some v | none => p.descripcion
    id_categoria := match u.id_categoria with | some v => some v | none => p.id_categoria
    costo := match u.costo with | some v => v | none => p.costo
    precio_venta := match u.precio_venta with | some v => v | none => p.precio_venta
    stock := match u.stock with | some v => v | none => p.stock
    activo := match u.activo with | some v => v | none => p.activo
    imagen_url := match nueva_imagen_url with | some url => some url | none => p.imagen_url }

/-- Mirrors `if not updates:` in `actualizar_producto_con_imagen` for the
no-image case (with an image, the `imagen_url` entry makes the list
non-empty). -/
def producto_con_imagen_update_is_empty (u : ProductoConImagenForm) : Bool :=
  u.codigo_barras.isNone && u.nombre.isNone && u.descripcion.isNone &&
  u.id_categoria.isNone && u.costo.isNone && u.precio_venta.isNone &&
  u.stock.isNone && u.activo.isNone

/-- Embeds the `actualizar_producto_con_imagen` handler
(routes/productos.py, lines 110-222): SELECT by id (404 if no row); when an
image is uploaded, validate its filename (400 on an invalid format, nothing
written), replace the stored file and set `imagen_url`; build the UPDATE from
the supplied form fields only; with no fields and no image return the
existing row unchanged.  `generar_nombre_archivo`/`guardar_archivo_local`
produce a fresh name and write the file (side effects), so the URL the saved
image gets is the `nueva_url` parameter; the uploaded file is abstracted as
its filename. -/
def actualizar_producto_con_imagen (db : List Producto) (i : ℕ)
    (u : ProductoConImagenForm) (imagen : Option String) (nueva_url : String) :
    RouteResult Producto × List Producto :=
  match db.filter (fun p => p.id_producto == i) with
  | [] => (.failure 404 "Producto no encontrado", db)
  | existing :: _ =>
    match imagen with
    | some filename =>
      if validar_imagen filename then
        (.success 200 (apply_producto_con_imagen_update existing u (some nueva_url)),
         db.map (fun p => if p.id_producto == i
           then apply_producto_con_imagen_update p u (some nueva_url) else p))
      else
        (.failure 400 "Formato de imagen no válido. Use: jpg, jpeg, png, gif, webp", db)
    | none =>
      if producto_con_imagen_update_is_empty u then
        (.success 200 existing, db)
      else
        (.success 200 (apply_producto_con_imagen_update existing u none),
         db.map (fun p => if p.id_producto == i
           then apply_producto_con_imagen_update p u none else p))

/-! ## convertir_decimal_a_float (utils/helpers.py) -/

mutual
/-- A Python value as seen by `convertir_decimal_a_float`: a `Decimal`, a
float, some other leaf, a dict, or a list. -/
inductive PyVal where
  | dec (d : ℚ)
  | flo (x : ℚ)
  | leaf (s : String)
  | dict (entries : PyDict)
  | list (items : PyList)
/-- Entries of a Python dict of `PyVal` values. -/
inductive PyDict where
  | nil
  | cons (key : String) (val : PyVal) (tail : PyDict)
/-- A Python list of `PyVal` values. -/
inductive PyList where
  | nil
  | cons (val : PyVal) (tail : PyList)
end

mutual
/-- Embeds `convertir_decimal_a_float` (utils/helpers.py): replace every
`Decimal` by its float value (the lossy `float(...)` cast is abstracted as a
map `f : ℚ → ℚ`), recurse through dicts and lists, and leave every other
value untouched. -/
def convertir_decimal_a_float (f : ℚ → ℚ) : PyVal → PyVal
  | .dec d => .flo (f d)
  | .flo x => .flo x
  | .leaf s => .leaf s
  | .dict es => .dict (convertir_dict f es)
  | .list xs => .list (convertir_list f xs)
/-- The dict comprehension branch of `convertir_decimal_a_float`. -/
def convertir_dict (f : ℚ → ℚ) : PyDict → PyDict
  | .nil => .nil
  | .cons k v tl => .cons k (convertir_decimal_a_float f v) (convertir_dict f tl)
/-- The list comprehension branch of `convertir_decimal_a_float`. -/
def convertir_list (f : ℚ → ℚ) : PyList → PyList
  | .nil => .nil
  | .cons v tl => .cons (convertir_decimal_a_float f v) (convertir_list f tl)
end

mutual
/-- Whether a value still contains a `Decimal` anywhere. -/
def contiene_decimal : PyVal → Bool
  | .dec _ => true
  | .flo _ => false
  | .leaf _ => false
  | .dict es => contiene_decimal_dict es
  | .list xs => contiene_decimal_list xs
/-- Whether a dict still contains a `Decimal` anywhere. -/
def contiene_decimal_dict : PyDict → Bool
  | .nil => false
  | .cons _ v tl => contiene_decimal v || contiene_decimal_dict tl
/-- Whether a list still contains a `Decimal` anywhere. -/
def contiene_decimal_list : PyList → Bool
  | .nil => false
  | .cons v tl => contiene_decimal v || contiene_decimal_list tl
end

/-! ## Theorems -/

mutual
theorem conv_no_decimal (f : ℚ → ℚ) :
    (v : PyVal) → contiene_decimal (convertir_decimal_a_float f v) = false
  | .dec _ => rfl
  | .flo _ => rfl
  | .leaf _ => rfl
  | .dict es => by
      simp only [convertir_decimal_a_float, contiene_decimal]
      exact conv_no_decimal_dict f es
  | .list xs => by
      simp only [convertir_decimal_a_float, contiene_decimal]
      exact conv_no_decimal_list f xs
theorem conv_no_decimal_dict (f : ℚ → ℚ) :
    (es : PyDict) → contiene_decimal_dict (convertir_dict f es) = false
  | .nil => rfl
  | .cons _ v tl => by
      simp only [convertir_dict, contiene_decimal_dict, Bool.or_eq_false_iff]
      exact ⟨conv_no_decimal f v, conv_no_decimal_dict f tl⟩
theorem conv_no_decimal_list (f : ℚ → ℚ) :
    (xs : PyList) → contiene_decimal_list (convertir_list f xs) = false
  | .nil => rfl
  | .cons v tl => by
      simp only [convertir_list, contiene_decimal_list, Bool.or_eq_false_iff]
      exact ⟨conv_no_decimal f v, conv_no_decimal_list f tl⟩
end

mutual
theorem conv_idempotent (f : ℚ → ℚ) :
    (v : PyVal) → convertir_decimal_a_float f (convertir_decimal_a_float f v)
      = convertir_decimal_a_float f v
  | .dec _ => rfl
  | .flo _ => rfl
  | .leaf _ => rfl
  | .dict es => by
      simp only [convertir_decimal_a_float]
      exact congrArg PyVal.dict (conv_idempotent_dict f es)
  | .list xs => by
      simp only [convertir_decimal_a_float]
      exact congrArg PyVal.list (conv_idempotent_list f xs)
theorem conv_idempotent_dict (f : ℚ → ℚ) :
    (es : PyDict) → convertir_dict f (convertir_dict f es) = convertir_dict f es
  | .nil => rfl
  | .cons k v tl => by
      simp only [convertir_dict]
      rw [conv_idempotent f v, conv_idempotent_dict f tl]
theorem conv_idempotent_list (f : ℚ → ℚ) :
    (xs : PyList) → convertir_list f (convertir_list f xs) = convertir_list f xs
  | .nil => rfl
  | .cons v tl => by
      simp only [convertir_list]
      rw [conv_idempotent f v, conv_idempotent_list f tl]
end

/-- C10: `convertir_decimal_a_float` is idempotent: one application yields a
structure containing no `Decimal` (every `Decimal` replaced by its float
value, other leaves unchanged, structure preserved), and a second application
yields an equal result. -/
theorem claim_C10 (f : ℚ → ℚ) (v : PyVal) (s : String) (d : ℚ) :
    contiene_decimal (convertir_decimal_a_float f v) = false
    ∧ convertir_decimal_a_float f (convertir_decimal_a_float f v)
        = convertir_decimal_a_float f v
    ∧ convertir_decimal_a_float f (.leaf s) = .leaf s
    ∧ convertir_decimal_a_float f (.dec d) = .flo (f d) :=
  ⟨conv_no_decimal f v, conv_idempotent f v, rfl, rfl⟩

/-- C8: the computed margin column equals sale price minus cost, and the
gain-percentage column equals `(precio - costo) / costo * 100` when the cost
is positive and `0` when the cost is zero (both in the SQL computed columns of
routes/productos.py and in the helpers of utils/helpers.py); the division is
guarded, so the zero-cost case never divides by zero. -/
theorem claim_C8 (costo precio_venta : ℚ) :
    producto_margen_ganancia costo precio_venta = precio_venta - costo
    ∧ calcular_margen_ganancia costo precio_venta = precio_venta - costo
    ∧ (0 < costo →
        producto_porcentaje_ganancia costo precio_venta
          = (precio_venta - costo) / costo * 100
        ∧ calcular_porcentaje_ganancia costo precio_venta
          = (precio_venta - costo) / costo * 100)
    ∧ (costo = 0 →
        producto_porcentaje_ganancia costo precio_venta = 0
        ∧ calcular_porcentaje_ganancia costo precio_venta = 0) := by
  refine ⟨rfl, rfl, fun h => ⟨?_, ?_⟩, fun h => ⟨?_, ?_⟩⟩
  · simp [producto_porcentaje_ganancia, h]
  · simp [calcular_porcentaje_ganancia, h.ne']
  · simp [producto_porcentaje_ganancia, h]
  · simp [calcular_porcentaje_ganancia, h]

/-- Witness for C8 at the spec's concrete example: cost 100.00 and price
150.00 give margin 50.00 and percentage 50.0. -/
theorem claim_C8_witness :
    producto_margen_ganancia 100 150 = 50
    ∧ producto_porcentaje_ganancia 100 150 = 50
    ∧ calcular_porcentaje_ganancia 100 150 = 50 := by
  have h := claim_C8 100 150
  have h3 := h.2.2.1 (by norm_num)
  refine ⟨?_, ?_, ?_⟩
  · rw [h.1]; norm_num
  · rw [h3.1]; norm_num
  · rw [h3.2]; norm_num

theorem registros_signed_sum (r : List RegistroRow) :
    ((r.filter (fun x => x.tipo == "ganancia")).map (·.monto)).sum
      - ((r.filter (fun x => x.tipo == "inversion")).map (·.monto)).sum
      - ((r.filter (fun x => x.tipo == "gasto")).map (·.monto)).sum
    = (r.map (fun x =>
        if x.tipo == "ganancia" then x.monto
        else if x.tipo == "inversion" then -x.monto
        else if x.tipo == "gasto" then -x.monto
        else 0)).sum := by
  induction r with
  | nil => simp
  | cons a t ih =>
    simp only [List.filter_cons, List.map_cons, List.sum_cons]
    by_cases hg : a.tipo = "ganancia"
    · have e1 : (a.tipo == "ganancia") = true := by rw [hg]; rfl
      have e2 : (a.tipo == "inversion") = false := by rw [hg]; rfl
      have e3 : (a.tipo == "gasto") = false := by rw [hg]; rfl
      simp only [e1, e2, e3, if_true, Bool.false_eq_true, if_false,
        List.map_cons, List.sum_cons]
      rw [← ih]; ring
    · by_cases hi : a.tipo = "inversion"
      · have e1 : (a.tipo == "ganancia") = false := by rw [hi]; rfl
        have e2 : (a.tipo == "inversion") = true := by rw [hi]; rfl
        have e3 : (a.tipo == "gasto") = false := by rw [hi]; rfl
        simp only [e1, e2, e3, if_true, Bool.false_eq_true, if_false,
          List.map_cons, List.sum_cons]
        rw [← ih]; ring
      · by_cases hx : a.tipo = "gasto"
        · have e1 : (a.tipo == "ganancia") = false := by rw [hx]; rfl
          have e2 : (a.tipo == "inversion") = false := by rw [hx]; rfl
          have e3 : (a.tipo == "gasto") = true := by rw [hx]; rfl
          simp only [e1, e2, e3, if_true, Bool.false_eq_true, if_false,
            List.map_cons, List.sum_cons]
          rw [← ih]; ring
        · have e1 : (a.tipo == "ganancia") = false := by
            simpa using hg
          have e2 : (a.tipo == "inversion") = false := by
            simpa using hi
          have e3 : (a.tipo == "gasto") = false := by
            simpa using hx
          simp only [e1, e2, e3, Bool.false_eq_true, if_false,
            List.map_cons, List.sum_cons]
          rw [← ih]; ring

/-- C5: `calcular_totales_periodo` returns `ganancia_neta` equal to the sum of
sale totals minus the sum of purchase totals, plus manual `ganancia` entries,
minus manual `inversion` entries, minus manual `gasto` entries, all in exact
arithmetic (`ℚ`); entries of type `ajuste` contribute to no total. -/
theorem claim_C5 (v : List VentaRow) (c : List CompraRow)
    (r r₁ r₂ : List RegistroRow) (a : RegistroRow) (ha : a.tipo = "ajuste") :
    (calcular_totales_periodo v c r).ganancia_neta
      = (v.map (·.total)).sum - (c.map (·.total)).sum
        + ((r.filter (fun x => x.tipo == "ganancia")).map (·.monto)).sum
        - ((r.filter (fun x => x.tipo == "inversion")).map (·.monto)).sum
        - ((r.filter (fun x => x.tipo == "gasto")).map (·.monto)).sum
    ∧ (calcular_totales_periodo v c r).ganancia_neta
      = (v.map (·.total)).sum - (c.map (·.total)).sum
        + (r.map (fun x =>
            if x.tipo == "ganancia" then x.monto
            else if x.tipo == "inversion" then -x.monto
            else if x.tipo == "gasto" then -x.monto
            else 0)).sum
    ∧ calcular_totales_periodo v c (r₁ ++ a :: r₂)
      = calcular_totales_periodo v c (r₁ ++ r₂) := by
  have h1 : (calcular_totales_periodo v c r).ganancia_neta
      = (v.map (·.total)).sum - (c.map (·.total)).sum
        + ((r.filter (fun x => x.tipo == "ganancia")).map (·.monto)).sum
        - ((r.filter (fun x => x.tipo == "inversion")).map (·.monto)).sum
        - ((r.filter (fun x => x.tipo == "gasto")).map (·.monto)).sum := rfl
  refine ⟨h1, ?_, ?_⟩
  · rw [h1, ← registros_signed_sum]; ring
  · have b1 : (("ajuste" : String) == "inversion") = false := rfl
    have b2 : (("ajuste" : String) == "gasto") = false := rfl
    have b3 : (("ajuste" : String) == "ganancia") = false := rfl
    simp [calcular_totales_periodo, List.filter_append, List.filter_cons, ha, b1, b2, b3]

/-- Witness for C5 at a concrete input: one sale of 450, one purchase of 300,
one manual gain of 20, one manual investment of 5, one manual expense of 10
and one `ajuste` entry of 999 give net profit 155, and dropping the `ajuste`
entry changes nothing. -/
theorem claim_C5_witness :
    (calcular_totales_periodo [⟨1, 3, 450⟩] [⟨300⟩]
        [⟨"ganancia", 20⟩, ⟨"inversion", 5⟩, ⟨"gasto", 10⟩]).ganancia_neta
      = ([(450 : ℚ)]).sum - ([(300 : ℚ)]).sum + 20 - 5 - 10
    ∧ calcular_totales_periodo [⟨1, 3, 450⟩] [⟨300⟩]
        ([⟨"ganancia", 20⟩] ++ (⟨"ajuste", 999⟩ : RegistroRow) :: [⟨"gasto", 10⟩])
      = calcular_totales_periodo [⟨1, 3, 450⟩] [⟨300⟩]
        ([⟨"ganancia", 20⟩] ++ [⟨"gasto", 10⟩]) := by
  have h := claim_C5 [⟨1, 3, 450⟩] [⟨300⟩]
    [⟨"ganancia", 20⟩, ⟨"inversion", 5⟩, ⟨"gasto", 10⟩]
    [⟨"ganancia", 20⟩] [⟨"gasto", 10⟩] ⟨"ajuste", 999⟩ rfl
  refine ⟨?_, h.2.2⟩
  rw [h.1]
  have b1 : (("ganancia" : String) == "ganancia") = true := rfl
  have b2 : (("inversion" : String) == "ganancia") = false := rfl
  have b3 : (("gasto" : String) == "ganancia") = false := rfl
  have b4 : (("ganancia" : String) == "inversion") = false := rfl
  have b5 : (("inversion" : String) == "inversion") = true := rfl
  have b6 : (("gasto" : String) == "inversion") = false := rfl
  have b7 : (("ganancia" : String) == "gasto") = false := rfl
  have b8 : (("inversion" : String) == "gasto") = false := rfl
  have b9 : (("gasto" : String) == "gasto") = true := rfl
  simp [List.filter_cons, b1, b2, b3, b4, b5, b6, b7, b8, b9]

/-- C4: the sale-registration handler maps a failure of the external
registration procedure whose text shows the insufficient-stock condition to a
400, a failure showing the product-not-found condition to a 404, any other
failure to a generic 500, and a success to a 201 with the created sale
record. -/
theorem claim_C4 {α : Type} (proc : Except String α) :
    (∀ v, proc = .ok v → registrar_venta proc = .success 201 v)
    ∧ (∀ msg, proc = .error msg →
        (str_contains "Stock insuficiente" msg = true →
          registrar_venta proc = .failure 400 msg)
        ∧ (str_contains "Stock insuficiente" msg = false →
           str_contains "Producto no encontrado" msg = true →
          registrar_venta proc = .failure 404 msg)
        ∧ (str_contains "Stock insuficiente" msg = false →
           str_contains "Producto no encontrado" msg = false →
          registrar_venta proc = .failure 500 ("Error al registrar venta: " ++ msg))) := by
  refine ⟨fun v hv => ?_, fun msg hm => ⟨fun h1 => ?_, fun h1 h2 => ?_, fun h1 h2 => ?_⟩⟩
  · rw [hv]; rfl
  · rw [hm]; simp [registrar_venta, h1]
  · rw [hm]; simp [registrar_venta, h1, h2]
  · rw [hm]; simp [registrar_venta, h1, h2]

/-- Witness for C4 at concrete procedure outcomes: the three recognizable
error texts map to 400, 404 and 500, and a success maps to 201. -/
theorem claim_C4_witness :
    registrar_venta (Except.error "Stock insuficiente: quedan 2 unidades")
      = (.failure 400 "Stock insuficiente: quedan 2 unidades" : RouteResult ℕ)
    ∧ registrar_venta (Except.error "Producto no encontrado")
      = (.failure 404 "Producto no encontrado" : RouteResult ℕ)
    ∧ registrar_venta (Except.error "deadlock detected")
      = (.failure 500 "Error al registrar venta: deadlock detected" : RouteResult ℕ)
    ∧ registrar_venta (Except.ok 7)
      = (.success 201 7 : RouteResult ℕ) := by
  refine ⟨?_, ?_, ?_, ?_⟩
  · exact ((claim_C4 _).2 _ rfl).1 (by decide)
  · exact (((claim_C4 _).2 _ rfl).2.1 (by decide) (by decide))
  · exact (((claim_C4 _).2 _ rfl).2.2 (by decide) (by decide))
  · exact (claim_C4 _).1 7 rfl

/-- C2 counterexample: a failing statement executed through
`execute_query_dict` propagates the error after a trace that contains no
rollback — the claim's rollback guarantee does not hold for this function. -/
theorem claim_C2_counterexample :
    (@execute_query_dict Unit (Except.error "division by zero")).1
        = Except.error "division by zero"
    ∧ (@execute_query_dict Unit (Except.error "division by zero")).2.count
        DBEvent.rollback = 0
    ∧ (@execute_query_dict Unit (Except.error "division by zero")).2.count
        DBEvent.release = 1 := by
  refine ⟨rfl, ?_, ?_⟩ <;> decide

/-- C2 (amended): `get_db_cursor` and `execute_query` roll back the active
transaction on any exception and release the connection exactly once on every
exit path; `execute_query_dict` also releases the connection exactly once on
every exit path, but performs no rollback when the execution raises. -/
theorem claim_C2_amended {α : Type} (commit fetch : Bool)
    (bodyA : Except String α) (bodyQ : Except String (List α × ℕ))
    (bodyD : Except String (List α)) :
    ((get_db_cursor commit bodyA).2.count .release = 1)
    ∧ (∀ e, bodyA = .error e →
        .rollback ∈ (get_db_cursor commit bodyA).2
        ∧ (get_db_cursor commit bodyA).1 = .error e)
    ∧ ((execute_query fetch bodyQ).2.count .release = 1)
    ∧ (∀ e, bodyQ = .error e →
        .rollback ∈ (execute_query fetch bodyQ).2
        ∧ (execute_query fetch bodyQ).1 = .error e)
    ∧ ((execute_query_dict bodyD).2.count .release = 1)
    ∧ (∀ e, bodyD = .error e →
        (execute_query_dict bodyD).2.count .rollback = 0
        ∧ (execute_query_dict bodyD).1 = .error e) := by
  refine ⟨?_, ?_, ?_, ?_, ?_, ?_⟩
  · cases bodyA <;> cases commit <;> rfl
  · intro e he; rw [he]; exact ⟨by simp [get_db_cursor], rfl⟩
  · cases bodyQ <;> cases fetch <;> rfl
  · intro e he; rw [he]
    exact ⟨by simp [execute_query, get_db_cursor, Except.map], rfl⟩
  · cases bodyD <;> rfl
  · intro e he; rw [he]; exact ⟨rfl, rfl⟩

/-- Witness for C2 (amended) at concrete failing statements. -/
theorem claim_C2_amended_witness :
    DBEvent.rollback ∈ (@get_db_cursor Unit true (Except.error "boom")).2
    ∧ (@execute_query_dict Unit (Except.error "boom")).2.count DBEvent.rollback = 0 := by
  have h := @claim_C2_amended Unit true true (.error "boom") (.error "boom") (.error "boom")
  exact ⟨(h.2.1 "boom" rfl).1, (h.2.2.2.2.2 "boom" rfl).1⟩

theorem cerrar_conflict (s : Store) (anio mes : ℕ)
    (hne : s.periodos.filter (fun q => q.anio == anio && q.mes == mes) ≠ []) :
    cerrar_periodo_mensual s anio mes = (.failure 400 "Ya existe un periodo cerrado", s) := by
  simp only [cerrar_periodo_mensual]
  rw [if_neg hne]

theorem cerrar_ok (s : Store) (anio mes : ℕ)
    (hnil : s.periodos.filter (fun q => q.anio == anio && q.mes == mes) = [])
    (hwf : ∀ p ∈ s.periodos, p.id_periodo < s.next_id) :
    cerrar_periodo_mensual s anio mes
      = (.success 201 (sql_cerrar_periodo_mensual s anio mes).1,
         (sql_cerrar_periodo_mensual s anio mes).2) := by
  have hids : s.periodos.filter (fun q => q.id_periodo == s.next_id) = [] := by
    rw [List.filter_eq_nil]
    intro q hq
    simp [Nat.ne_of_lt (hwf q hq)]
  have hone : ((sql_cerrar_periodo_mensual s anio mes).1.id_periodo == s.next_id) = true := by
    rw [show (sql_cerrar_periodo_mensual s anio mes).1.id_periodo = s.next_id from rfl]
    exact beq_self_eq_true _
  have hf : (sql_cerrar_periodo_mensual s anio mes).2.periodos.filter
      (fun q => q.id_periodo == (sql_cerrar_periodo_mensual s anio mes).1.id_periodo)
      = [(sql_cerrar_periodo_mensual s anio mes).1] := by
    show ((s.periodos ++ [(sql_cerrar_periodo_mensual s anio mes).1]).filter
      (fun q => q.id_periodo == s.next_id)) = _
    rw [List.filter_append, hids]
    simp [List.filter_cons, hone]
  simp only [cerrar_periodo_mensual]
  rw [if_pos hnil, hf]

/-- C1: closing a month for which a snapshot already exists fails with a 400
and leaves the store unchanged; closing a month with no snapshot succeeds with
a 201, returns the newly created snapshot for that `(anio, mes)`, and appends
exactly that snapshot row. -/
theorem claim_C1 (s : Store) (anio mes : ℕ)
    (hwf : ∀ p ∈ s.periodos, p.id_periodo < s.next_id) :
    ((∃ p ∈ s.periodos, p.anio = anio ∧ p.mes = mes) →
      (cerrar_periodo_mensual s anio mes).1 = .failure 400 "Ya existe un periodo cerrado"
      ∧ (cerrar_periodo_mensual s anio mes).2 = s)
    ∧ ((∀ p ∈ s.periodos, ¬(p.anio = anio ∧ p.mes = mes)) →
      ∃ snap, (cerrar_periodo_mensual s anio mes).1 = .success 201 snap
        ∧ snap.anio = anio ∧ snap.mes = mes
        ∧ (cerrar_periodo_mensual s anio mes).2.periodos = s.periodos ++ [snap]) := by
  constructor
  · rintro ⟨p, hp, ha, hm⟩
    have hne : s.periodos.filter (fun q => q.anio == anio && q.mes == mes) ≠ [] := by
      intro hnil
      exact (List.filter_eq_nil.mp hnil p hp) (by simp [ha, hm])
    rw [cerrar_conflict s anio mes hne]
    exact ⟨rfl, rfl⟩
  · intro hno
    have hnil : s.periodos.filter (fun q => q.anio == anio && q.mes == mes) = [] := by
      rw [List.filter_eq_nil]
      intro q hq
      simp only [Bool.and_eq_true, beq_iff_eq]
      exact fun hc => hno q hq ⟨hc.1, hc.2⟩
    rw [cerrar_ok s anio mes hnil hwf]
    exact ⟨(sql_cerrar_periodo_mensual s anio mes).1, rfl, rfl, rfl, rfl⟩

/-- Witness for C1: a store whose only snapshot is for (2025, 3).  Closing
(2025, 3) again fails with 400 and changes nothing; closing (2025, 4)
succeeds with 201 and appends one snapshot. -/
theorem claim_C1_witness :
    ((cerrar_periodo_mensual
        ⟨[], [], [], [⟨0, 2025, 3, 0, 0, 0, 0, 0, []⟩], 1⟩ 2025 3).1
      = .failure 400 "Ya existe un periodo cerrado"
    ∧ (cerrar_periodo_mensual
        ⟨[], [], [], [⟨0, 2025, 3, 0, 0, 0, 0, 0, []⟩], 1⟩ 2025 3).2
      = ⟨[], [], [], [⟨0, 2025, 3, 0, 0, 0, 0, 0, []⟩], 1⟩)
    ∧ (∃ snap, (cerrar_periodo_mensual
        ⟨[], [], [], [⟨0, 2025, 3, 0, 0, 0, 0, 0, []⟩], 1⟩ 2025 4).1
        = .success 201 snap
      ∧ snap.anio = 2025 ∧ snap.mes = 4
      ∧ (cerrar_periodo_mensual
          ⟨[], [], [], [⟨0, 2025, 3, 0, 0, 0, 0, 0, []⟩], 1⟩ 2025 4).2.periodos
        = [⟨0, 2025, 3, 0, 0, 0, 0, 0, []⟩] ++ [snap]) := by
  have hwf : ∀ p ∈ (⟨[], [], [], [⟨0, 2025, 3, 0, 0, 0, 0, 0, []⟩], 1⟩ : Store).periodos,
      p.id_periodo < (⟨[], [], [], [⟨0, 2025, 3, 0, 0, 0, 0, 0, []⟩], 1⟩ : Store).next_id := by
    intro p hp
    simp only [List.mem_singleton] at hp
    rw [hp]
    decide
  have h1 := claim_C1 ⟨[], [], [], [⟨0, 2025, 3, 0, 0, 0, 0, 0, []⟩], 1⟩ 2025 3 hwf
  have h2 := claim_C1 ⟨[], [], [], [⟨0, 2025, 3, 0, 0, 0, 0, 0, []⟩], 1⟩ 2025 4 hwf
  have hcon := h1.1 ⟨⟨0, 2025, 3, 0, 0, 0, 0, 0, []⟩, by simp, rfl, rfl⟩
  have hok := h2.2 (by
    intro p hp
    simp only [List.mem_singleton] at hp
    rw [hp]
    rintro ⟨-, hm⟩
    exact absurd hm (by decide))
  exact ⟨hcon, hok⟩

/-- C6: given identical source rows, the live current-period aggregate
assembled by the report path equals, field for field (sales total, purchases
total, manual totals by type, net profit, top-product ranking), the snapshot
that closing the period at that instant would persist; both agree with
`calcular_totales_periodo` on every monetary field. -/
theorem claim_C6 (s : Store) (anio mes : ℕ) :
    (generar_excel_periodo_actual_data s).total_ventas
      = (sql_cerrar_periodo_mensual s anio mes).1.total_ventas
    ∧ (generar_excel_periodo_actual_data s).total_compras
      = (sql_cerrar_periodo_mensual s anio mes).1.total_compras
    ∧ (generar_excel_periodo_actual_data s).total_inversion_manual
      = (sql_cerrar_periodo_mensual s anio mes).1.total_inversion_manual
    ∧ (generar_excel_periodo_actual_data s).total_gastos_manual
      = (sql_cerrar_periodo_mensual s anio mes).1.total_gastos_manual
    ∧ (generar_excel_periodo_actual_data s).ganancia_neta
      = (sql_cerrar_periodo_mensual s anio mes).1.ganancia_neta
    ∧ (generar_excel_periodo_actual_data s).top_productos
      = (sql_cerrar_periodo_mensual s anio mes).1.top_productos
    ∧ (sql_cerrar_periodo_mensual s anio mes).1.total_ventas
      = (calcular_totales_periodo s.ventas s.compras s.registros).total_ventas
    ∧ (sql_cerrar_periodo_mensual s anio mes).1.total_compras
      = (calcular_totales_periodo s.ventas s.compras s.registros).total_compras
    ∧ (sql_cerrar_periodo_mensual s anio mes).1.total_inversion_manual
      = (calcular_totales_periodo s.ventas s.compras s.registros).inversion_manual
    ∧ (sql_cerrar_periodo_mensual s anio mes).1.total_gastos_manual
      = (calcular_totales_periodo s.ventas s.compras s.registros).gastos_manual
    ∧ (sql_cerrar_periodo_mensual s anio mes).1.ganancia_neta
      = (calcular_totales_periodo s.ventas s.compras s.registros).ganancia_neta :=
  ⟨rfl, rfl, rfl, rfl, rfl, rfl, rfl, rfl, rfl, rfl, rfl⟩

theorem apply_categoria_update_empty (c : Categoria) (u : CategoriaUpdate)
    (h : categoria_update_is_empty u = true) : apply_categoria_update c u = c := by
  simp only [categoria_update_is_empty, Bool.and_eq_true, Option.isNone_iff_eq_none] at h
  obtain ⟨⟨h1, h2⟩, h3⟩ := h
  simp [apply_categoria_update, h1, h2, h3]

theorem map_categoria_update_id (db : List Categoria) (i : ℕ) (u : CategoriaUpdate)
    (h : categoria_update_is_empty u = true) :
    db.map (fun x => if x.id_categoria == i then apply_categoria_update x u else x) = db := by
  have hcong : ∀ x ∈ db,
      (if x.id_categoria == i then apply_categoria_update x u else x) = x := by
    intro x _
    by_cases hx : (x.id_categoria == i) = true
    · simp [hx, apply_categoria_update_empty x u h]
    · simp [hx]
  calc db.map (fun x => if x.id_categoria == i then apply_categoria_update x u else x)
      = db.map id := List.map_congr_left hcong
    _ = db := List.map_id db

theorem apply_producto_update_empty (p : Producto) (u : ProductoUpdate)
    (h : producto_update_is_empty u = true) : apply_producto_update p u = p := by
  simp only [producto_update_is_empty, Bool.and_eq_true, Option.isNone_iff_eq_none] at h
  obtain ⟨⟨⟨⟨⟨⟨⟨⟨h1, h2⟩, h3⟩, h4⟩, h5⟩, h6⟩, h7⟩, h8⟩, h9⟩ := h
  simp [apply_producto_update, h1, h2, h3, h4, h5, h6, h7, h8, h9]

theorem map_producto_update_id (db : List Producto) (i : ℕ) (u : ProductoUpdate)
    (h : producto_update_is_empty u = true) :
    db.map (fun x => if x.id_producto == i then apply_producto_update x u else x) = db := by
  have hcong : ∀ x ∈ db,
      (if x.id_producto == i then apply_producto_update x u else x) = x := by
    intro x _
    by_cases hx : (x.id_producto == i) = true
    · simp [hx, apply_producto_update_empty x u h]
    · simp [hx]
  calc db.map (fun x => if x.id_producto == i then apply_producto_update x u else x)
      = db.map id := List.map_congr_left hcong
    _ = db := List.map_id db

/-- C7: category and product updates have partial-update semantics: supplied
fields overwrite, unsupplied fields keep their prior values (ids and the
registration timestamps are never touched); an id with no matching row yields
a 404 and modifies nothing; a matching row yields the post-update record and
rewrites exactly the rows with that id; a request supplying no fields returns
the existing record and leaves the table unchanged. -/
theorem claim_C7 :
    (∀ (c : Categoria) (u : CategoriaUpdate),
      (u.nombre = none → (apply_categoria_update c u).nombre = c.nombre)
      ∧ (∀ v, u.nombre = some v → (apply_categoria_update c u).nombre = v)
      ∧ (u.descripcion = none → (apply_categoria_update c u).descripcion = c.descripcion)
      ∧ (∀ v, u.descripcion = some v → (apply_categoria_update c u).descripcion = some v)
      ∧ (u.activo = none → (apply_categoria_update c u).activo = c.activo)
      ∧ (∀ v, u.activo = some v → (apply_categoria_update c u).activo = v)
      ∧ (apply_categoria_update c u).id_categoria = c.id_categoria
      ∧ (apply_categoria_update c u).fecha_registro = c.fecha_registro)
    ∧ (∀ (db : List Categoria) (id : ℕ) (u : CategoriaUpdate),
      (db.filter (fun x => x.id_categoria == id) = [] →
        (actualizar_categoria db id u).1 = .failure 404 "Categoria no encontrada"
        ∧ (actualizar_categoria db id u).2 = db)
      ∧ (∀ c rest, db.filter (fun x => x.id_categoria == id) = c :: rest →
        (actualizar_categoria db id u).1 = .success 200 (apply_categoria_update c u)
        ∧ (actualizar_categoria db id u).2
            = db.map (fun x => if x.id_categoria == id then apply_categoria_update x u else x)
        ∧ (categoria_update_is_empty u = true →
            (actualizar_categoria db id u).1 = .success 200 c
            ∧ (actualizar_categoria db id u).2 = db)))
    ∧ (∀ (p : Producto) (u : ProductoUpdate),
      (u.codigo_barras = none → (apply_producto_update p u).codigo_barras = p.codigo_barras)
      ∧ (∀ v, u.codigo_barras = some v → (apply_producto_update p u).codigo_barras = some v)
      ∧ (u.nombre = none → (apply_producto_update p u).nombre = p.nombre)
      ∧ (∀ v, u.nombre = some v → (apply_producto_update p u).nombre = v)
      ∧ (u.descripcion = none → (apply_producto_update p u).descripcion = p.descripcion)
      ∧ (∀ v, u.descripcion = some v → (apply_producto_update p u).descripcion = some v)
      ∧ (u.id_categoria = none → (apply_producto_update p u).id_categoria = p.id_categoria)
      ∧ (∀ v, u.id_categoria = some v → (apply_producto_update p u).id_categoria = some v)
      ∧ (u.costo = none → (apply_producto_update p u).costo = p.costo)
      ∧ (∀ v, u.costo = some v → (apply_producto_update p u).costo = v)
      ∧ (u.precio_venta = none → (apply_producto_update p u).precio_venta = p.precio_venta)
      ∧ (∀ v, u.precio_venta = some v → (apply_producto_update p u).precio_venta = v)
      ∧ (u.stock = none → (apply_producto_update p u).stock = p.stock)
      ∧ (∀ v, u.stock = some v → (apply_producto_update p u).stock = v)
      ∧ (u.imagen_url = none → (apply_producto_update p u).imagen_url = p.imagen_url)
      ∧ (∀ v, u.imagen_url = some v → (apply_producto_update p u).imagen_url = some v)
      ∧ (u.activo = none → (apply_producto_update p u).activo = p.activo)
      ∧ (∀ v, u.activo = some v → (apply_producto_update p u).activo = v)
      ∧ (apply_producto_update p u).id_producto = p.id_producto
      ∧ (apply_producto_update p u).fecha_registro = p.fecha_registro
      ∧ (apply_producto_update p u).fecha_modificacion = p.fecha_modificacion)
    ∧ (∀ (db : List Producto) (id : ℕ) (u : ProductoUpdate),
      (db.filter (fun x => x.id_producto == id) = [] →
        (actualizar_producto db id u).1 = .failure 404 "Producto no encontrado"
        ∧ (actualizar_producto db id u).2 = db)
      ∧ (∀ p rest, db.filter (fun x => x.id_producto == id) = p :: rest →
        (actualizar_producto db id u).1 = .success 200 (apply_producto_update p u)
        ∧ (actualizar_producto db id u).2
            = db.map (fun x => if x.id_producto == id then apply_producto_update x u else x)
        ∧ (producto_update_is_empty u = true →
            (actualizar_producto db id u).1 = .success 200 p
            ∧ (actualizar_producto db id u).2 = db))) := by
  refine ⟨?_, ?_, ?_, ?_⟩
  · intro c u
    exact ⟨fun h => by simp [apply_categoria_update, h],
      fun v h => by simp [apply_categoria_update, h],
      fun h => by simp [apply_categoria_update, h],
      fun v h => by simp [apply_categoria_update, h],
      fun h => by simp [apply_categoria_update, h],
      fun v h => by simp [apply_categoria_update, h],
      rfl, rfl⟩
  · intro db id u
    constructor
    · intro hnil
      simp [actualizar_categoria, hnil]
    · intro c rest hf
      simp only [actualizar_categoria, hf]
      by_cases he : categoria_update_is_empty u = true
      · rw [if_pos he]
        refine ⟨?_, ?_, fun _ => ⟨rfl, rfl⟩⟩
        · rw [apply_categoria_update_empty c u he]
        · rw [map_categoria_update_id db id u he]
      · rw [if_neg he]
        exact ⟨rfl, rfl, fun hemp => absurd hemp he⟩
  · intro p u
    exact ⟨fun h => by simp [apply_producto_update, h],
      fun v h => by simp [apply_producto_update, h],
      fun h => by simp [apply_producto_update, h],
      fun v h => by simp [apply_producto_update, h],
      fun h => by simp [apply_producto_update, h],
      fun v h => by simp [apply_producto_update, h],
      fun h => by simp [apply_producto_update, h],
      fun v h => by simp [apply_producto_update, h],
      fun h => by simp [apply_producto_update, h],
      fun v h => by simp [apply_producto_update, h],
      fun h => by simp [apply_producto_update, h],
      fun v h => by simp [apply_producto_update, h],
      fun h => by simp [apply_producto_update, h],
      fun v h => by simp [apply_producto_update, h],
      fun h => by simp [apply_producto_update, h],
      fun v h => by simp [apply_producto_update, h],
      fun h => by simp [apply_producto_update, h],
      fun v h => by simp [apply_producto_update, h],
      rfl, rfl, rfl⟩
  · intro db id u
    constructor
    · intro hnil
      simp [actualizar_producto, hnil]
    · intro p rest hf
      simp only [actualizar_producto, hf]
      by_cases he : producto_update_is_empty u = true
      · rw [if_pos he]
        refine ⟨?_, ?_, fun _ => ⟨rfl, rfl⟩⟩
        · rw [apply_producto_update_empty p u he]
        · rw [map_producto_update_id db id u he]
      · rw [if_neg he]
        exact ⟨rfl, rfl, fun hemp => absurd hemp he⟩

/-- Witness for C7 at concrete rows: updating category 1's name succeeds and
keeps its description; updating a missing category is a 404; updating product
1's cost succeeds and keeps its stock. -/
theorem claim_C7_witness :
    (actualizar_categoria [⟨1, "Bebidas", none, true, 0⟩] 1
        { nombre := some "Snacks" }).1
      = .success 200 (apply_categoria_update ⟨1, "Bebidas", none, true, 0⟩
          { nombre := some "Snacks" })
    ∧ (apply_categoria_update (⟨1, "Bebidas", none, true, 0⟩ : Categoria)
        { nombre := some "Snacks" }).descripcion = none
    ∧ (actualizar_categoria [] 2 { nombre := some "Snacks" }).1
      = .failure 404 "Categoria no encontrada"
    ∧ (actualizar_producto
        [⟨1, none, "Mouse", none, none, 100, 150, 7, none, true, 0, 0⟩] 1
        { costo := some 120 }).1
      = .success 200 (apply_producto_update
          ⟨1, none, "Mouse", none, none, 100, 150, 7, none, true, 0, 0⟩
          { costo := some 120 })
    ∧ (apply_producto_update
        (⟨1, none, "Mouse", none, none, 100, 150, 7, none, true, 0, 0⟩ : Producto)
        { costo := some 120 }).stock = 7 := by
  have h := claim_C7
  refine ⟨?_, ?_, ?_, ?_, ?_⟩
  · exact ((h.2.1 [⟨1, "Bebidas", none, true, 0⟩] 1 { nombre := some "Snacks" }).2
      ⟨1, "Bebidas", none, true, 0⟩ [] rfl).1
  · exact ((h.1 ⟨1, "Bebidas", none, true, 0⟩ { nombre := some "Snacks" }).2.2.1 rfl).trans rfl
  · exact ((h.2.1 [] 2 { nombre := some "Snacks" }).1 rfl).1
  · exact ((h.2.2.2 [⟨1, none, "Mouse", none, none, 100, 150, 7, none, true, 0, 0⟩] 1
      { costo := some 120 }).2
      ⟨1, none, "Mouse", none, none, 100, 150, 7, none, true, 0, 0⟩ [] rfl).1
  · exact (((h.2.2.1 ⟨1, none, "Mouse", none, none, 100, 150, 7, none, true, 0, 0⟩
      { costo := some 120 }).2.2.2.2.2.2.2.2.2.2.2.2.1) rfl).trans rfl

/-- C3 counterexample: both product update endpoints write the stock field
directly: updating product 1 with `stock = 99` — through `actualizar_producto`
or through `actualizar_producto_con_imagen` — changes its stored stock from 7
to 99, so stock is not mutated only through sale/purchase registration. -/
theorem claim_C3_counterexample :
    ((actualizar_producto
        [⟨1, none, "Mouse", none, none, 100, 150, 7, none, true, 0, 0⟩] 1
        { stock := some 99 }).2.map (·.stock)) = [99]
    ∧ (⟨1, none, "Mouse", none, none, 100, 150, 7, none, true, 0, 0⟩ : Producto).stock = 7
    ∧ (actualizar_producto
        [⟨1, none, "Mouse", none, none, 100, 150, 7, none, true, 0, 0⟩] 1
        { stock := some 99 }).1
      = .success 200 ⟨1, none, "Mouse", none, none, 100, 150, 99, none, true, 0, 0⟩
    ∧ ((actualizar_producto_con_imagen
        [⟨1, none, "Mouse", none, none, 100, 150, 7, none, true, 0, 0⟩] 1
        { stock := some 99 } none "sin-imagen").2.map (·.stock)) = [99] := by
  exact ⟨rfl, rfl, rfl, rfl⟩

/-- C3 (amended): stock is written by both product update operations
(`actualizar_producto` and `actualizar_producto_con_imagen`) whenever the
request supplies the stock field; an update request that omits stock leaves
every product's stock unchanged on either endpoint. -/
theorem claim_C3_amended (db : List Producto) (id : ℕ) (u : ProductoUpdate) :
    (u.stock = none →
      ((actualizar_producto db id u).2.map (·.stock)) = db.map (·.stock))
    ∧ (∀ n p rest, u.stock = some n →
        db.filter (fun x => x.id_producto == id) = p :: rest →
        ∃ p', (actualizar_producto db id u).1 = .success 200 p' ∧ p'.stock = n)
    ∧ (∀ (v : ProductoConImagenForm) (imagen : Option String) (nueva_url : String),
        v.stock = none →
        ((actualizar_producto_con_imagen db id v imagen nueva_url).2.map (·.stock))
          = db.map (·.stock))
    ∧ (∀ (v : ProductoConImagenForm) (imagen : Option String) (nueva_url : String)
        (n : ℕ) (p : Producto) (rest : List Producto), v.stock = some n →
        db.filter (fun x => x.id_producto == id) = p :: rest →
        (imagen = none ∨ ∃ f, imagen = some f ∧ validar_imagen f = true) →
        ∃ p', (actualizar_producto_con_imagen db id v imagen nueva_url).1
            = .success 200 p' ∧ p'.stock = n) := by
  refine ⟨?_, ?_, ?_, ?_⟩
  · intro hs
    rcases hf : db.filter (fun x => x.id_producto == id) with _ | ⟨p, rest⟩
    · simp only [actualizar_producto, hf]
    · simp only [actualizar_producto, hf]
      by_cases he : producto_update_is_empty u = true
      · rw [if_pos he]
      · rw [if_neg he]
        simp only [List.map_map]
        apply List.map_congr_left
        intro x _
        by_cases hx : (x.id_producto == id) = true
        · simp [Function.comp, hx, apply_producto_update, hs]
        · simp [Function.comp, hx]
  · intro n p rest hn hf
    have he : producto_update_is_empty u = false := by
      simp [producto_update_is_empty, hn]
    simp only [actualizar_producto, hf]
    rw [if_neg (by simp [he])]
    exact ⟨apply_producto_update p u, rfl, by simp [apply_producto_update, hn]⟩
  · intro v imagen nueva_url hs
    rcases hf : db.filter (fun x => x.id_producto == id) with _ | ⟨p, rest⟩
    · simp only [actualizar_producto_con_imagen, hf]
    · cases imagen with
      | none =>
        simp only [actualizar_producto_con_imagen, hf]
        by_cases he : producto_con_imagen_update_is_empty v = true
        · rw [if_pos he]
        · rw [if_neg he]
          simp only [List.map_map]
          apply List.map_congr_left
          intro x _
          by_cases hx : (x.id_producto == id) = true
          · simp [Function.comp, hx, apply_producto_con_imagen_update, hs]
          · simp [Function.comp, hx]
      | some f =>
        simp only [actualizar_producto_con_imagen, hf]
        by_cases hv : validar_imagen f = true
        · rw [if_pos hv]
          simp only [List.map_map]
          apply List.map_congr_left
          intro x _
          by_cases hx : (x.id_producto == id) = true
          · simp [Function.comp, hx, apply_producto_con_imagen_update, hs]
          · simp [Function.comp, hx]
        · rw [if_neg hv]
  · intro v imagen nueva_url n p rest hn hf himg
    rcases himg with rfl | ⟨f, rfl, hv⟩
    · have he : producto_con_imagen_update_is_empty v = false := by
        simp [producto_con_imagen_update_is_empty, hn]
      simp only [actualizar_producto_con_imagen, hf]
      rw [if_neg (by simp [he])]
      exact ⟨apply_producto_con_imagen_update p v none, rfl,
        by simp [apply_producto_con_imagen_update, hn]⟩
    · simp only [actualizar_producto_con_imagen, hf]
      rw [if_pos hv]
      exact ⟨apply_producto_con_imagen_update p v (some nueva_url), rfl,
        by simp [apply_producto_con_imagen_update, hn]⟩

/-- Witness for C3 (amended): renaming product 1 leaves its stock 7 on both
endpoints (with a valid image on the image-bearing one); updating with
`stock = 99` yields a record whose stock is 99 on both endpoints. -/
theorem claim_C3_amended_witness :
    ((actualizar_producto
        [⟨1, none, "Mouse", none, none, 100, 150, 7, none, true, 0, 0⟩] 1
        { nombre := some "Teclado" }).2.map (·.stock)) = [7]
    ∧ (∃ p', (actualizar_producto
        [⟨1, none, "Mouse", none, none, 100, 150, 7, none, true, 0, 0⟩] 1
        { stock := some 99 }).1 = .success 200 p' ∧ p'.stock = 99)
    ∧ ((actualizar_producto_con_imagen
        [⟨1, none, "Mouse", none, none, 100, 150, 7, none, true, 0, 0⟩] 1
        { nombre := some "Teclado" } (some "foto.jpg")
        "/static/images/nueva.jpg").2.map (·.stock)) = [7]
    ∧ (∃ p', (actualizar_producto_con_imagen
        [⟨1, none, "Mouse", none, none, 100, 150, 7, none, true, 0, 0⟩] 1
        { stock := some 99 } (some "foto.jpg") "/static/images/nueva.jpg").1
        = .success 200 p' ∧ p'.stock = 99) := by
  refine ⟨?_, ?_, ?_, ?_⟩
  · exact ((claim_C3_amended
      [⟨1, none, "Mouse", none, none, 100, 150, 7, none, true, 0, 0⟩] 1
      { nombre := some "Teclado" }).1 rfl).trans rfl
  · exact (claim_C3_amended
      [⟨1, none, "Mouse", none, none, 100, 150, 7, none, true, 0, 0⟩] 1
      { stock := some 99 }).2.1 99
      ⟨1, none, "Mouse", none, none, 100, 150, 7, none, true, 0, 0⟩ [] rfl rfl
  · exact (((claim_C3_amended
      [⟨1, none, "Mouse", none, none, 100, 150, 7, none, true, 0, 0⟩] 1
      { stock := none }).2.2.1 { nombre := some "Teclado" } (some "foto.jpg")
      "/static/images/nueva.jpg" rfl).trans rfl)
  · exact (claim_C3_amended
      [⟨1, none, "Mouse", none, none, 100, 150, 7, none, true, 0, 0⟩] 1
      { stock := none }).2.2.2 { stock := some 99 } (some "foto.jpg")
      "/static/images/nueva.jpg" 99
      ⟨1, none, "Mouse", none, none, 100, 150, 7, none, true, 0, 0⟩ [] rfl rfl
      (Or.inr ⟨"foto.jpg", rfl, by decide⟩)

theorem int_toNat_mul_natCast (x : ℤ) (ps : ℕ) : (x * (ps : ℤ)).toNat = x.toNat * ps := by
  rcases Int.le_or_lt 0 x with h | h
  · obtain ⟨n, rfl⟩ := Int.eq_ofNat_of_zero_le h
    rw [← Int.natCast_mul, Int.toNat_ofNat, Int.toNat_ofNat]
  · have h1 : x.toNat = 0 := Int.toNat_of_nonpos h.le
    have h2 : x * (ps : ℤ) ≤ 0 :=
      mul_nonpos_iff.mpr (Or.inr ⟨h.le, Int.natCast_nonneg ps⟩)
    rw [h1, Int.toNat_of_nonpos h2, Nat.zero_mul]

theorem join_chunks {α : Type} (ps : ℕ) :
    ∀ (n : ℕ) (l : List α), l.length ≤ n * ps →
    ((List.range n).map (fun i => (l.drop (i * ps)).take ps)).flatten = l := by
  intro n
  induction n with
  | zero =>
    intro l h
    have hl : l = [] := List.eq_nil_of_length_eq_zero (Nat.le_zero.mp (by simpa using h))
    simp [hl]
  | succ n ih =>
    intro l h
    rw [List.range_succ_eq_map, List.map_cons, List.map_map, List.flatten_cons]
    have hmap : (List.range n).map ((fun i => (l.drop (i * ps)).take ps) ∘ Nat.succ)
        = (List.range n).map (fun i => (((l.drop ps).drop (i * ps))).take ps) := by
      apply List.map_congr_left
      intro i _
      show ((l.drop (Nat.succ i * ps)).take ps) = _
      rw [List.drop_drop, Nat.succ_mul, Nat.add_comm (i * ps) ps]
    rw [hmap]
    have hlen : (l.drop ps).length ≤ n * ps := by
      rw [List.length_drop]
      rw [Nat.succ_mul] at h
      omega
    rw [ih (l.drop ps) hlen]
    show (l.drop (0 * ps)).take ps ++ l.drop ps = l
    rw [Nat.zero_mul, List.drop_zero]
    exact List.take_append_drop ps l

theorem ceil_div_bounds (L ps : ℕ) (hps : 0 < ps) :
    L ≤ ((L + ps - 1) / ps) * ps ∧ ((L + ps - 1) / ps) * ps < L + ps := by
  have hd := Nat.div_add_mod (L + ps - 1) ps
  have hm : (L + ps - 1) % ps < ps := Nat.mod_lt _ hps
  generalize hq : (L + ps - 1) / ps = q at hd ⊢
  generalize hr : (L + ps - 1) % ps = r at hd hm
  clear hq hr
  have hc : ps * q = q * ps := Nat.mul_comm ps q
  rw [hc] at hd
  generalize hx : q * ps = x at hd ⊢
  clear hx hc
  omega

theorem paginar_data_of_page_le {α : Type} (l : List α) (ps : ℕ) (i : ℕ)
    (hi : i < (l.length + ps - 1) / ps) :
    (paginar_resultados l ((i : ℤ) + 1) ps).data = (l.drop (i * ps)).take ps := by
  have hi' : (i : ℤ) + 1 ≤ ((l.length + ps - 1) / ps : ℕ) := by
    exact_mod_cast Nat.succ_le_of_lt hi
  simp only [paginar_resultados]
  have h1 : ¬((i : ℤ) + 1 < 1) := by omega
  rw [if_neg h1]
  have hc : ¬((((l.length + ps - 1) / ps : ℕ) : ℤ) < (i : ℤ) + 1
      ∧ 0 < (l.length + ps - 1) / ps) := by
    rintro ⟨ha, -⟩
    exact lt_irrefl _ (lt_of_lt_of_le ha hi')
  rw [if_neg hc]
  rw [show ((i : ℤ) + 1 - 1) = (i : ℤ) from by ring]
  rw [int_toNat_mul_natCast, Int.toNat_ofNat]

/-- C9: `paginar_resultados` returns the list's length as `total`, the
ceiling of `total / page_size` as `total_pages` (characterized by
`total ≤ total_pages * page_size < total + page_size`), clamps the page to 1
from below and — when `total_pages` is positive — to `total_pages` from
above, returns as `data` the contiguous slice starting at
`(page - 1) * page_size` of length at most `page_size`, and concatenating the
data of pages 1 through `total_pages` restores the input list. -/
theorem claim_C9 {α : Type} (l : List α) (page : ℤ) (ps : ℕ) (hps : 0 < ps) :
    (paginar_resultados l page ps).total = l.length
    ∧ (paginar_resultados l page ps).total
        ≤ (paginar_resultados l page ps).total_pages * ps
    ∧ (paginar_resultados l page ps).total_pages * ps
        < (paginar_resultados l page ps).total + ps
    ∧ (page < 1 → (paginar_resultados l page ps).page = 1)
    ∧ ((((paginar_resultados l page ps).total_pages : ℤ) < page
        ∧ 0 < (paginar_resultados l page ps).total_pages) →
        (paginar_resultados l page ps).page
          = ((paginar_resultados l page ps).total_pages : ℤ))
    ∧ (paginar_resultados l page ps).data
        = (l.drop (((paginar_resultados l page ps).page - 1).toNat * ps)).take ps
    ∧ (paginar_resultados l page ps).data.length ≤ ps
    ∧ ((List.range (paginar_resultados l page ps).total_pages).map
        (fun (i : ℕ) => (paginar_resultados l ((i : ℤ) + 1) ps).data)).flatten = l := by
  have hbound := ceil_div_bounds l.length ps hps
  refine ⟨rfl, hbound.1, hbound.2, ?_, ?_, ?_, ?_, ?_⟩
  · intro h
    simp only [paginar_resultados]
    rw [if_pos h]
    rw [if_neg ?hc1]
    case hc1 =>
      rintro ⟨ha, hb⟩
      omega
  · rintro ⟨ha, hb⟩
    simp only [paginar_resultados] at ha hb ⊢
    have hnot : ¬(page < 1) := by omega
    rw [if_neg hnot, if_pos ⟨ha, hb⟩]
  · simp only [paginar_resultados]
    rw [int_toNat_mul_natCast]
  · exact List.length_take_le ps _
  · show ((List.range ((l.length + ps - 1) / ps)).map
      (fun (i : ℕ) => (paginar_resultados l ((i : ℤ) + 1) ps).data)).flatten = l
    have hmap2 : (List.range ((l.length + ps - 1) / ps)).map
        (fun (i : ℕ) => (paginar_resultados l ((i : ℤ) + 1) ps).data)
        = (List.range ((l.length + ps - 1) / ps)).map
          (fun i => (l.drop (i * ps)).take ps) :=
      List.map_congr_left
        (fun i hi => paginar_data_of_page_le l ps i (List.mem_range.mp hi))
    rw [hmap2]
    exact join_chunks ps ((l.length + ps - 1) / ps) l hbound.1

/-- Witness for C9 on the list [10, 20, 30] with page size 2: a requested
page of 0 is clamped to 1, a requested page of 5 is clamped to the 2 total
pages, and concatenating pages 1..2 restores the list. -/
theorem claim_C9_witness :
    (paginar_resultados ([10, 20, 30] : List ℕ) 0 2).page = 1
    ∧ (paginar_resultados ([10, 20, 30] : List ℕ) 5 2).page
      = ((paginar_resultados ([10, 20, 30] : List ℕ) 5 2).total_pages : ℤ)
    ∧ ((List.range (paginar_resultados ([10, 20, 30] : List ℕ) 5 2).total_pages).map
        (fun (i : ℕ) => (paginar_resultados ([10, 20, 30] : List ℕ) ((i : ℤ) + 1) 2).data)).flatten
      = [10, 20, 30] := by
  have h0 := claim_C9 ([10, 20, 30] : List ℕ) 0 2 (by decide)
  have h5 := claim_C9 ([10, 20, 30] : List ℕ) 5 2 (by decide)
  exact ⟨h0.2.2.2.1 (by decide), h5.2.2.2.2.1 ⟨by decide, by decide⟩,
    h5.2.2.2.2.2.2.2⟩

end ClaudStore
